import Mathlib

/-!
Verification development for the pyevacalor library (src/pyevacalor/__init__.py).

The file shallowly embeds the register-map translation core and the web-call
orchestration of the library:

- Python numbers (ints and floats as produced by the vendor formulas) are
  modelled by `PyNum`, a normalized fraction `Frac` tagged with Python's
  int/float distinction.  The vendor formulas only produce dyadic/decimal
  values, for which the fraction abstraction agrees with IEEE doubles.
- Python `eval` applied to a substituted formula string (the source lines
  `eval(formula)` in `Device.__get_information_item` and
  `Device.__prepare_value_for_writing`) is modelled by `pyEval`: a lexer and
  recursive-descent parser for the numeric-expression fragment of Python
  (literals, `+ - * / ( )`, unary sign, and exponentiation `**` with integer
  exponent).  Real `eval` accepts far more than this fragment; the fragment
  is enough to evaluate every formula used by the claims and already exceeds
  the restricted grammar demanded by the specification.
- `str.format` is modelled for the identity template "{0}" (the only
  format_string exercised by the specification's examples); other templates
  are outside the model and map to a modelling failure, never to a value.
- Web calls are modelled by response scripts: a `List` (for the 401/retry
  logic of `evacalor.handle_webcall`) or a function from attempt index to
  poll outcome (for the job-status polling loops).
-/

/-- Frac is an always-normalized fraction (denominator positive, gcd 1),
standing in for the Python numeric values (ints and floats) that flow
through the register formulas. -/
structure Frac where
  num : ℤ
  den : ℤ
deriving DecidableEq

/-- Frac.norm builds the normalized fraction n / d (for d ≠ 0): the sign is
moved to the numerator and the gcd divided out. -/
def Frac.norm (n d : ℤ) : Frac :=
  let n2 := if d < 0 then -n else n
  let d2 := if d < 0 then -d else d
  let g : ℤ := (n2.natAbs.gcd d2.natAbs : ℤ)
  if g = 0 then ⟨0, 1⟩ else ⟨n2 / g, d2 / g⟩

/-- Frac.ofInt embeds an integer. -/
def Frac.ofInt (n : ℤ) : Frac := ⟨n, 1⟩

/-- Frac.add is exact fraction addition followed by normalization. -/
def Frac.add (a b : Frac) : Frac := Frac.norm (a.num * b.den + b.num * a.den) (a.den * b.den)

/-- Frac.sub is exact fraction subtraction followed by normalization. -/
def Frac.sub (a b : Frac) : Frac := Frac.norm (a.num * b.den - b.num * a.den) (a.den * b.den)

/-- Frac.mul is exact fraction multiplication followed by normalization. -/
def Frac.mul (a b : Frac) : Frac := Frac.norm (a.num * b.num) (a.den * b.den)

/-- Frac.negF is fraction negation. -/
def Frac.negF (a : Frac) : Frac := ⟨-a.num, a.den⟩

/-- Frac.divF is exact fraction division; division by zero yields none,
mirroring Python's ZeroDivisionError. -/
def Frac.divF (a b : Frac) : Option Frac :=
  if b.num = 0 then none else some (Frac.norm (a.num * b.den) (a.den * b.num))

/-- Frac.powInt raises a fraction to an integer power; a negative power of
zero yields none, mirroring Python's ZeroDivisionError. -/
def Frac.powInt (a : Frac) (e : ℤ) : Option Frac :=
  if 0 ≤ e then some (Frac.norm (a.num ^ e.toNat) (a.den ^ e.toNat))
  else if a.num = 0 then none
  else some (Frac.norm (a.den ^ (-e).toNat) (a.num ^ (-e).toNat))

/-- Frac.blt is the strict order on fractions by cross multiplication
(denominators are kept positive by `Frac.norm`). -/
def Frac.blt (a b : Frac) : Bool := decide (a.num * b.den < b.num * a.den)

/-- PyNum models a Python number: a value together with Python's int/float
distinction, which decides how `str` renders it. -/
structure PyNum where
  isFloat : Bool
  val : Frac
deriving DecidableEq

/-- PyNum.add mirrors Python +: the result is a float iff either operand is. -/
def PyNum.add (a b : PyNum) : PyNum := ⟨a.isFloat || b.isFloat, a.val.add b.val⟩

/-- PyNum.sub mirrors Python binary -. -/
def PyNum.sub (a b : PyNum) : PyNum := ⟨a.isFloat || b.isFloat, a.val.sub b.val⟩

/-- PyNum.mul mirrors Python *. -/
def PyNum.mul (a b : PyNum) : PyNum := ⟨a.isFloat || b.isFloat, a.val.mul b.val⟩

/-- PyNum.neg mirrors Python unary -. -/
def PyNum.neg (a : PyNum) : PyNum := ⟨a.isFloat, a.val.negF⟩

/-- PyNum.div mirrors Python 3 true division /: the result is always a
float; division by zero raises (none). -/
def PyNum.div (a b : PyNum) : Option PyNum :=
  (a.val.divF b.val).map (fun v => ⟨true, v⟩)

/-- PyNum.pow mirrors Python ** for integer exponents (the only exponents
the model needs): int ** nonnegative int is an int, a negative exponent or a
float operand gives a float.  Non-integer exponents are outside the model. -/
def PyNum.pow (a b : PyNum) : Option PyNum :=
  if b.val.den = 1 then
    (a.val.powInt b.val.num).map
      (fun v => ⟨a.isFloat || b.isFloat || decide (b.val.num < 0), v⟩)
  else none

/-- pow10Z is the integer power of ten used by the decimal renderer. -/
def pow10Z (k : ℕ) : ℤ := (10 : ℤ) ^ k

/-- floatDigitsScale finds the least number of decimal digits after the
point that renders the fraction exactly (bounded by 60, far beyond any
value a Python float can need). -/
def floatDigitsScale (q : Frac) : Option ℕ :=
  (List.range 61).find? (fun k => pow10Z k % q.den == 0)

/-- pyFloatStr renders a fraction the way Python's str renders the
corresponding float: minimal terminating decimal expansion with at least
one digit on each side of the point (Python's scientific notation for very
large or small magnitudes is outside the model). -/
def pyFloatStr (q : Frac) : String :=
  let sign := if q.num < 0 then "-" else ""
  let n := q.num.natAbs
  match floatDigitsScale q with
  | none => sign ++ toString n ++ "/" ++ toString q.den.natAbs
  | some 0 => sign ++ toString n ++ ".0"
  | some (k + 1) =>
      let m := n * ((pow10Z (k + 1)) / q.den).natAbs
      let s := toString m
      let s := if s.length ≤ k + 1 then String.mk (List.replicate (k + 2 - s.length) '0') ++ s else s
      sign ++ String.mk (s.data.take (s.length - (k + 1))) ++ "." ++
        String.mk (s.data.drop (s.length - (k + 1)))

/-- PyNum.pyStr mirrors Python's str on numbers: ints render without a
decimal point, floats with one. -/
def PyNum.pyStr (x : PyNum) : String :=
  if x.isFloat then pyFloatStr x.val else toString x.val.num

/-- natOfDigits folds a digit list into the natural number it denotes. -/
def natOfDigits (ds : List Char) : ℕ :=
  ds.foldl (fun a c => a * 10 + (c.toNat - '0'.toNat)) 0

/-- replaceHash replaces every occurrence of the placeholder character #
in a character list by the substitution text; this is Python's
str.replace specialized to the one-character pattern "#" used at both
eval call sites. -/
def replaceHash : List Char → List Char → List Char
  | [], _ => []
  | c :: cs, sub => if c = '#' then sub ++ replaceHash cs sub else c :: replaceHash cs sub

/-- substituteHash is formula.replace("#", repl) from the source. -/
def substituteHash (formula repl : String) : String :=
  String.mk (replaceHash formula.data repl.data)

/-- pyFloatOfString mirrors Python's float() on plain decimal strings:
optional sign, digits, optional fractional part; exponent notation is not
needed by the model.  Unparsable strings yield none (Python raises). -/
def pyFloatOfString (s : String) : Option Frac :=
  let cs := s.data
  let (neg, cs1) :=
    match cs with
    | '-' :: r => (true, r)
    | '+' :: r => (false, r)
    | r => (false, r)
  let (ip, cs2) := cs1.span Char.isDigit
  let (fp, cs3) :=
    match cs2 with
    | '.' :: r =>
        let (f, r2) := r.span Char.isDigit
        (f, r2)
    | r => (([] : List Char), r)
  if cs3 = [] ∧ (ip ≠ [] ∨ fp ≠ []) then
    let v := Frac.norm ((natOfDigits ip : ℤ) * pow10Z fp.length + (natOfDigits fp : ℤ)) (pow10Z fp.length)
    some (if neg then v.negF else v)
  else none

/-- truncToInt mirrors Python's int() on a float: truncation toward zero. -/
def truncToInt (q : Frac) : ℤ := Int.tdiv q.num q.den

/-- Tok is a token of the numeric-expression fragment of Python that the
model of eval understands. -/
inductive Tok where
  | num (isFloat : Bool) (val : Frac)
  | plus
  | minus
  | star
  | slash
  | dstar
  | lparen
  | rparen
deriving DecidableEq

/-- lexToks tokenizes a character list over the numeric fragment: integer
and decimal literals, + - * / ( ), exponentiation ** and spaces.  Any other
character is a lexical error (none), as real eval would reject formulas the
fragment does not cover or accept ones beyond it; the fragment is exactly
what the development needs.  The fuel argument exceeds the input length. -/
def lexToks : ℕ → List Char → Option (List Tok)
  | 0, _ => none
  | _, [] => some []
  | fuel + 1, c :: cs =>
    if c = ' ' then lexToks fuel cs
    else if c = '+' then (lexToks fuel cs).map (Tok.plus :: ·)
    else if c = '-' then (lexToks fuel cs).map (Tok.minus :: ·)
    else if c = '*' then
      match cs with
      | '*' :: cs2 => (lexToks fuel cs2).map (Tok.dstar :: ·)
      | _ => (lexToks fuel cs).map (Tok.star :: ·)
    else if c = '/' then (lexToks fuel cs).map (Tok.slash :: ·)
    else if c = '(' then (lexToks fuel cs).map (Tok.lparen :: ·)
    else if c = ')' then (lexToks fuel cs).map (Tok.rparen :: ·)
    else if c.isDigit then
      let (ip, rest) := (c :: cs).span Char.isDigit
      match rest with
      | '.' :: r2 =>
          let (fp, r3) := r2.span Char.isDigit
          (lexToks fuel r3).map
            (Tok.num true (Frac.norm ((natOfDigits ip : ℤ) * pow10Z fp.length + (natOfDigits fp : ℤ)) (pow10Z fp.length)) :: ·)
      | _ => (lexToks fuel rest).map (Tok.num false (Frac.ofInt (natOfDigits ip)) :: ·)
    else if c = '.' then
      let (fp, r3) := cs.span Char.isDigit
      if fp = [] then none
      else (lexToks fuel r3).map
        (Tok.num true (Frac.norm (natOfDigits fp : ℤ) (pow10Z fp.length)) :: ·)
    else none

mutual

/-- parseExpr parses an additive expression (Python a_expr). -/
def parseExpr : ℕ → List Tok → Option (PyNum × List Tok)
  | 0, _ => none
  | f + 1, ts =>
    match parseTerm f ts with
    | none => none
    | some (a, ts1) => parseExprLoop f a ts1

/-- parseExprLoop folds the trailing + and - operands of an additive
expression, left associatively. -/
def parseExprLoop : ℕ → PyNum → List Tok → Option (PyNum × List Tok)
  | 0, _, _ => none
  | f + 1, a, Tok.plus :: ts =>
    match parseTerm f ts with
    | none => none
    | some (b, ts1) => parseExprLoop f (a.add b) ts1
  | f + 1, a, Tok.minus :: ts =>
    match parseTerm f ts with
    | none => none
    | some (b, ts1) => parseExprLoop f (a.sub b) ts1
  | _ + 1, a, ts => some (a, ts)

/-- parseTerm parses a multiplicative expression (Python m_expr). -/
def parseTerm : ℕ → List Tok → Option (PyNum × List Tok)
  | 0, _ => none
  | f + 1, ts =>
    match parseFactor f ts with
    | none => none
    | some (a, ts1) => parseTermLoop f a ts1

/-- parseTermLoop folds the trailing * and / operands of a multiplicative
expression, left associatively; division by zero aborts evaluation. -/
def parseTermLoop : ℕ → PyNum → List Tok → Option (PyNum × List Tok)
  | 0, _, _ => none
  | f + 1, a, Tok.star :: ts =>
    match parseFactor f ts with
    | none => none
    | some (b, ts1) => parseTermLoop f (a.mul b) ts1
  | f + 1, a, Tok.slash :: ts =>
    match parseFactor f ts with
    | none => none
    | some (b, ts1) =>
      match a.div b with
      | none => none
      | some c => parseTermLoop f c ts1
  | _ + 1, a, ts => some (a, ts)

/-- parseFactor parses a unary expression (Python u_expr): optional unary
signs in front of a power expression. -/
def parseFactor : ℕ → List Tok → Option (PyNum × List Tok)
  | 0, _ => none
  | f + 1, Tok.minus :: ts =>
    match parseFactor f ts with
    | none => none
    | some (a, ts1) => some (a.neg, ts1)
  | f + 1, Tok.plus :: ts => parseFactor f ts
  | f + 1, ts => parsePower f ts

/-- parsePower parses a power expression (Python power): an atom followed
by an optional right-associative ** whose exponent is a unary expression. -/
def parsePower : ℕ → List Tok → Option (PyNum × List Tok)
  | 0, _ => none
  | f + 1, ts =>
    match parseAtom f ts with
    | none => none
    | some (a, ts1) =>
      match ts1 with
      | Tok.dstar :: ts2 =>
        match parseFactor f ts2 with
        | none => none
        | some (b, ts3) =>
          match a.pow b with
          | none => none
          | some c => some (c, ts3)
      | _ => some (a, ts1)

/-- parseAtom parses a literal or a parenthesized expression. -/
def parseAtom : ℕ → List Tok → Option (PyNum × List Tok)
  | 0, _ => none
  | _ + 1, Tok.num fl v :: ts => some (⟨fl, v⟩, ts)
  | f + 1, Tok.lparen :: ts =>
    match parseExpr f ts with
    | none => none
    | some (a, ts1) =>
      match ts1 with
      | Tok.rparen :: ts2 => some (a, ts2)
      | _ => none
  | _, _ => none

end

/-- pyEval models Python's eval on the numeric-expression fragment the
formulas live in (see the file comment): the string is tokenized and
parsed; a full parse yields the value, anything else (syntax error,
division by zero, constructs outside the fragment) yields none, standing
for the exception eval would raise or for behavior outside the model. -/
def pyEval (s : String) : Option PyNum :=
  match lexToks (s.data.length + 1) s.data with
  | none => none
  | some ts =>
    match parseExpr (5 * ts.length + 5) ts with
    | some (v, []) => some v
    | _ => none

/-- pyFormat models str.format for the identity template "{0}", the only
format_string the vendor maps in this development use: it renders the
number exactly as str would.  Other templates are outside the model. -/
def pyFormat (fmt : String) (x : PyNum) : Option String :=
  if fmt = "{0}" then some x.pyStr else none

/-- Modelled from the spec: the restricted arithmetic-expression grammar
that the specification demands for formula evaluation consists of the
operators + - * / ( ) and numeric literals only.  A string belongs to the
grammar iff it tokenizes into exactly those tokens; in particular the
exponentiation token ** is outside the grammar. -/
def inRestrictedGrammar (s : String) : Bool :=
  match lexToks (s.data.length + 1) s.data with
  | none => false
  | some ts =>
    ts.all fun t =>
      match t with
      | Tok.dstar => false
      | _ => true

/-- DevError models the exceptions the library can raise on the modelled
paths: fetchError is the library's own Error class (constructed with its
message), valueError is the ValueError raised by the write-bounds check
(carrying the bounds that were formatted into its message), keyError is a
Python KeyError on a missing dict key, and pyException stands for any
other uncaught Python exception the model distinguishes no further. -/
inductive DevError where
  | fetchError (msg : String)
  | valueError (lo hi : Frac)
  | keyError (key : String)
  | pyException (kind : String)
deriving DecidableEq

/-- EncVal is one entry of a register descriptor's enc_val list. -/
structure EncVal where
  lang : String
  description : String
  value : ℤ
deriving DecidableEq

/-- RawRegister is one register descriptor as delivered inside a
registers_map group of the server catalog (the fields
Device.__update_device_registers_mapping reads). -/
structure RawRegister where
  reg_key : String
  reg_type : ℤ
  offset : ℤ
  formula : String
  formula_inverse : String
  format_string : String
  set_min : Frac
  set_max : Frac
  mask : ℤ
  enc_val : Option (List EncVal)
deriving DecidableEq

/-- RegistersMapGroup is one group of the server catalog: an id and its
register descriptors. -/
structure RegistersMapGroup where
  id : ℤ
  registers : List RawRegister
deriving DecidableEq

/-- Catalog is the body of a successful deviceGetRegistersMap response:
res['device_registers_map']['registers_map']. -/
structure Catalog where
  registers_map : List RegistersMapGroup
deriving DecidableEq

/-- RegisterEntry is the per-key dict built by
Device.__update_device_registers_mapping (register_dict in the source),
with the optional on/off encodings filled in from enc_val. -/
structure RegisterEntry where
  reg_type : ℤ
  offset : ℤ
  formula : String
  formula_inverse : String
  format_string : String
  set_min : Frac
  set_max : Frac
  mask : ℤ
  value_on : Option ℤ
  value_off : Option ℤ
deriving DecidableEq

/-- buildRegisterEntry builds one register_dict: the plain fields are
copied and, when enc_val is present, its entries with lang ENG and
description ON or OFF set value_on and value_off (later entries win, as
repeated dict updates do). -/
def buildRegisterEntry (r : RawRegister) : RegisterEntry :=
  let base : RegisterEntry :=
    { reg_type := r.reg_type, offset := r.offset, formula := r.formula,
      formula_inverse := r.formula_inverse, format_string := r.format_string,
      set_min := r.set_min, set_max := r.set_max, mask := r.mask,
      value_on := none, value_off := none }
  match r.enc_val with
  | none => base
  | some vs =>
    vs.foldl
      (fun e v =>
        if v.lang = "ENG" ∧ v.description = "ON" then { e with value_on := some v.value }
        else if v.lang = "ENG" ∧ v.description = "OFF" then { e with value_off := some v.value }
        else e)
      base

/-- dictFind looks a key up in an association list whose newest binding is
at the head, the representation this file uses for Python dicts. -/
def dictFind {α β : Type} [BEq α] (d : List (α × β)) (k : α) : Option β :=
  (d.find? (fun p => p.1 == k)).map (fun p => p.2)

/-- buildRegisterMapDict builds register_map_dict from the descriptors of
the selected group: one insertion per descriptor, later duplicates
shadowing earlier ones exactly as repeated dict updates do. -/
def buildRegisterMapDict (regs : List RawRegister) : List (String × RegisterEntry) :=
  regs.foldl (fun d r => (r.reg_key, buildRegisterEntry r) :: d) []

/-- update_device_registers_mapping models
Device.__update_device_registers_mapping: callRes is the outcome of the
deviceGetRegistersMap web call (none models the False returned for a
non-200 response, which the method turns into an Error).  The method scans
every group; each group whose id equals the device's target id has its
registers compiled and assigned to the register map field; when no group
matches, the loop simply finishes and the previous map (old) is kept.  The
function returns the register map the device holds afterwards. -/
def update_device_registers_mapping (callRes : Option Catalog) (targetId : ℤ)
    (old : List (String × RegisterEntry)) :
    Except DevError (List (String × RegisterEntry)) :=
  match callRes with
  | none => Except.error (DevError.fetchError "Error while fetching registers map")
  | some cat =>
    Except.ok
      (cat.registers_map.foldl
        (fun acc g => if g.id = targetId then buildRegisterMapDict g.registers else acc)
        old)

/-- PollRes is the JSON body of a 200 deviceJobStatus response, reduced to
the fields the source reads: jobAnswerStatus, the Items/Values arrays of
jobAnswerData (items none models a missing Items key), and whether
jobAnswerData has a Cmd key. -/
structure PollRes where
  jobAnswerStatus : String
  items : Option (List ℤ)
  values : List PyNum
  hasCmd : Bool
deriving DecidableEq

/-- jobIncomplete is the guard res is False or res['jobAnswerStatus'] !=
"completed" shared by both polling loops (none models the False that
handle_webcall returns for a non-200 poll). -/
def jobIncomplete : Option PollRes → Bool
  | none => true
  | some r => r.jobAnswerStatus != "completed"

/-- hasCmdRes is the check 'Cmd' in res['jobAnswerData'] used by the write
path (False short-circuits before it in the source, hence false here). -/
def hasCmdRes : Option PollRes → Bool
  | none => false
  | some r => r.hasCmd

/-- pollLoopGo runs the source's while loop: res holds the answer of the
latest poll, k the retry_count, and the structural budget argument equals
10 - retry_count, so the loop body runs at most 10 more times.  polls maps
the attempt index (0 for the poll before the loop, then 1..10) to the
outcome of that deviceJobStatus call. -/
def pollLoopGo (polls : ℕ → Option PollRes) : Option PollRes → ℕ → ℕ → Option PollRes
  | res, _, 0 => res
  | res, k, b + 1 => if jobIncomplete res then pollLoopGo polls (polls (k + 1)) (k + 1) b else res

/-- runPollLoop performs the initial poll and then the bounded retry loop
with retry_count starting at 0 and bound 10, as both call sites do. -/
def runPollLoop (polls : ℕ → Option PollRes) : Option PollRes :=
  pollLoopGo polls (polls 0) 0 10

/-- buildInformationDict zips jobAnswerData Items with Values by the
source's manual index walk; if Values is shorter than Items the walk would
raise an uncaught IndexError, modelled as none. -/
def buildInformationDict (items : List ℤ) (values : List PyNum) :
    Option (List (ℤ × PyNum)) :=
  if values.length < items.length then none
  else some ((items.zip values).foldl (fun d p => p :: d) [])

/-- update_device_information models Device.__update_device_information:
bufferRes is the outcome of the deviceGetBufferReading call (none models
its False, turned into an Error; some carries idRequest), then the job is
polled by runPollLoop; an incomplete final answer raises Error, a missing
Items key raises KeyError which the source catches and turns into the same
Error, and short Values raise an uncaught IndexError.  On success the new
information dict is returned. -/
def update_device_information (bufferRes : Option String)
    (polls : ℕ → Option PollRes) : Except DevError (List (ℤ × PyNum)) :=
  match bufferRes with
  | none => Except.error (DevError.fetchError "Error while fetching device information")
  | some _ =>
    let res := runPollLoop polls
    if jobIncomplete res then
      Except.error (DevError.fetchError "Error while fetching device information")
    else
      match res with
      | none => Except.error (DevError.fetchError "Error while fetching device information")
      | some r =>
        match r.items with
        | none => Except.error (DevError.fetchError "Error while fetching device information")
        | some its =>
          match buildInformationDict its r.values with
          | none => Except.error (DevError.pyException "IndexError")
          | some d => Except.ok d

/-- DeviceState is the mutable translation state of a Device:
register_map_dict and information_dict. -/
structure DeviceState where
  register_map_dict : List (String × RegisterEntry)
  information_dict : List (ℤ × PyNum)
deriving DecidableEq

/-- device_update models Device.update: it runs
update_device_registers_mapping first and publishes its result into the
state as soon as it returns, then runs update_device_information and
publishes its result; an exception in the second call therefore leaves the
new register map already installed next to the previous raw values. -/
def device_update (catalogRes : Option Catalog) (targetId : ℤ)
    (bufferRes : Option String) (polls : ℕ → Option PollRes) (st : DeviceState) :
    Except DevError Unit × DeviceState :=
  match update_device_registers_mapping catalogRes targetId st.register_map_dict with
  | Except.error e => (Except.error e, st)
  | Except.ok m =>
    match update_device_information bufferRes polls with
    | Except.error e =>
      (Except.error e, { register_map_dict := m, information_dict := st.information_dict })
    | Except.ok i => (Except.ok (), { register_map_dict := m, information_dict := i })

/-- get_information_item models Device.__get_information_item: the item's
register entry is fetched, the raw value at its offset is substituted for
the placeholder in the formula as its str text, the formula is evaluated
by eval, and the format_string is applied to the result.  none models each
exception path (missing key, eval failure). -/
def get_information_item (st : DeviceState) (item : String) : Option String :=
  match dictFind st.register_map_dict item with
  | none => none
  | some e =>
    match dictFind st.information_dict e.offset with
    | none => none
    | some raw =>
      match pyEval (substituteHash e.formula raw.pyStr) with
      | none => none
      | some v => pyFormat e.format_string v

/-- encode_for_writing is the tail of Device.__prepare_value_for_writing
after the bounds check: str(value) replaces the placeholder in
formula_inverse, eval runs, format_string is applied, the text is read
back by float and truncated by int, and the single encoded value is
wrapped in a one-element list. -/
def encode_for_writing (e : RegisterEntry) (value : Frac) : Except DevError (List ℤ) :=
  match pyEval (substituteHash e.formula_inverse (pyFloatStr value)) with
  | none => Except.error (DevError.pyException "eval")
  | some v =>
    match pyFormat e.format_string v with
    | none => Except.error (DevError.pyException "format")
    | some s =>
      match pyFloatOfString s with
      | none => Except.error (DevError.pyException "float")
      | some f => Except.ok [truncToInt f]

/-- prepare_value_for_writing models Device.__prepare_value_for_writing:
the value (already coerced by float in the source) is checked against the
entry's set_min and set_max and a ValueError is raised when it lies
strictly outside them; otherwise the value is encoded.  A missing item
raises KeyError. -/
def prepare_value_for_writing (map : List (String × RegisterEntry)) (item : String)
    (value : Frac) : Except DevError (List ℤ) :=
  match dictFind map item with
  | none => Except.error (DevError.keyError item)
  | some e =>
    if value.blt e.set_min || e.set_max.blt value then
      Except.error (DevError.valueError e.set_min e.set_max)
    else encode_for_writing e value

/-- WriteRequest is the payload content of a deviceRequestWriting POST that
reaches the transport boundary: the register's offset and mask and the
encoded values (the constant protocol fields are omitted). -/
structure WriteRequest where
  items : List ℤ
  masks : List ℤ
  values : List ℤ
deriving DecidableEq

/-- request_writing models Device.__request_writing: the offset and mask of
the item's entry are read (a missing item raises KeyError before anything
is sent), the write request is posted (writeRes none models the False of a
failed call, some carries idRequest), the job is polled by runPollLoop,
and a final answer that is False, not completed, or lacking Cmd raises
Error.  The returned list is the trace of write requests that reached the
transport boundary. -/
def request_writing (map : List (String × RegisterEntry)) (item : String)
    (values : List ℤ) (writeRes : Option String) (polls : ℕ → Option PollRes) :
    Except DevError Unit × List WriteRequest :=
  match dictFind map item with
  | none => (Except.error (DevError.keyError item), [])
  | some e =>
    let req : WriteRequest := { items := [e.offset], masks := [e.mask], values := values }
    match writeRes with
    | none => (Except.error (DevError.fetchError "Error while request device writing"), [req])
    | some _ =>
      let res := runPollLoop polls
      if jobIncomplete res || !hasCmdRes res then
        (Except.error (DevError.fetchError "Error while request device writing"), [req])
      else (Except.ok (), [req])

/-- rewrapError models the setters' except Error: raise Error(msg) pattern:
the library's own Error is re-raised with the setter's message while other
exceptions (KeyError, ValueError) propagate unchanged. -/
def rewrapError (msg : String) :
    Except DevError Unit × List WriteRequest → Except DevError Unit × List WriteRequest
  | (Except.error (DevError.fetchError _), tr) => (Except.error (DevError.fetchError msg), tr)
  | o => o

/-- set_air_temperature models the set_air_temperature setter: the value is
validated and encoded by prepare_value_for_writing (whose ValueError or
KeyError propagates with no write emitted) and then written via
request_writing, whose Error is re-raised as the setter's Error. -/
def set_air_temperature (map : List (String × RegisterEntry)) (value : Frac)
    (writeRes : Option String) (polls : ℕ → Option PollRes) :
    Except DevError Unit × List WriteRequest :=
  match prepare_value_for_writing map "temp_air_set" value with
  | Except.error e => (Except.error e, [])
  | Except.ok values =>
    rewrapError "Error while trying to set temperature"
      (request_writing map "temp_air_set" values writeRes polls)

/-- set_power models the set_power setter, identical to the temperature
setter but on the power_set register. -/
def set_power (map : List (String × RegisterEntry)) (value : Frac)
    (writeRes : Option String) (polls : ℕ → Option PollRes) :
    Except DevError Unit × List WriteRequest :=
  match prepare_value_for_writing map "power_set" value with
  | Except.error e => (Except.error e, [])
  | Except.ok values =>
    rewrapError "Error while trying to set power"
      (request_writing map "power_set" values writeRes polls)

/-- turn_on models Device.turn_on: the value_on encoding of the
status_managed_get entry is read (a missing entry or encoding raises
KeyError before any write) and written via request_writing, whose Error is
re-raised as the method's Error. -/
def turn_on (map : List (String × RegisterEntry)) (writeRes : Option String)
    (polls : ℕ → Option PollRes) : Except DevError Unit × List WriteRequest :=
  match dictFind map "status_managed_get" with
  | none => (Except.error (DevError.keyError "status_managed_get"), [])
  | some e =>
    match e.value_on with
    | none => (Except.error (DevError.keyError "value_on"), [])
    | some v =>
      rewrapError "Error while trying to turn on device"
        (request_writing map "status_managed_get" [v] writeRes polls)

/-- turn_off models Device.turn_off, symmetric to turn_on with value_off. -/
def turn_off (map : List (String × RegisterEntry)) (writeRes : Option String)
    (polls : ℕ → Option PollRes) : Except DevError Unit × List WriteRequest :=
  match dictFind map "status_managed_get" with
  | none => (Except.error (DevError.keyError "status_managed_get"), [])
  | some e =>
    match e.value_off with
    | none => (Except.error (DevError.keyError "value_off"), [])
    | some v =>
      rewrapError "Error while trying to turn off device"
        (request_writing map "status_managed_get" [v] writeRes polls)

/-- CallResult is what evacalor.handle_webcall hands back to its caller:
failure is the bare False returned for a non-200 non-401 response, success
carries the JSON body of a 200 response (abstracted to a string). -/
inductive CallResult where
  | failure
  | success (body : String)
deriving DecidableEq

/-- handleWebcallSteps models the recursive part of evacalor.handle_webcall
against a script of responses (status code and body), one response per
attempted request.  A 401 response triggers do_refresh_token (assumed to
succeed; counted) and an unconditional recursive retry; any other non-200
returns False; a 200 returns the body.  The result counts the requests
made and the refreshes performed.  An exhausted script (none) stands for
the recursion still running: the source has no bound. -/
def handleWebcallSteps : List (ℕ × String) → Option CallResult × (ℕ × ℕ)
  | [] => (none, (0, 0))
  | (status, body) :: rest =>
    if status = 401 then
      let (r, c) := handleWebcallSteps rest
      (r, (c.1 + 1, c.2 + 1))
    else if status ≠ 200 then (some CallResult.failure, (1, 0))
    else (some (CallResult.success body), (1, 0))

/-- handle_webcall models evacalor.handle_webcall: before the request the
token expiry is checked and an expired token is refreshed once (the
refresh updates token_expires, so the recursive calls do not repeat it),
then the request/retry recursion of handleWebcallSteps runs. -/
def handle_webcall (tokenExpired : Bool) (responses : List (ℕ × String)) :
    Option CallResult × (ℕ × ℕ) :=
  let (r, c) := handleWebcallSteps responses
  (r, (c.1, c.2 + (if tokenExpired then 1 else 0)))

/-- leading401 counts the consecutive 401 responses at the head of a
response script. -/
def leading401 (rs : List (ℕ × String)) : ℕ :=
  (rs.takeWhile (fun p => p.1 == 401)).length

/-- interpretResponse is how handle_webcall turns the first non-401
response into its caller-visible result. -/
def interpretResponse (p : ℕ × String) : CallResult :=
  if p.1 ≠ 200 then CallResult.failure else CallResult.success p.2

/-- tempAirSetEntry is a concrete register entry with the decode formula,
inverse formula and format template named by the specification's examples
and realistic temperature bounds. -/
def tempAirSetEntry : RegisterEntry :=
  { reg_type := 2, offset := 0, formula := "#/10", formula_inverse := "#*10",
    format_string := "{0}", set_min := ⟨7, 1⟩, set_max := ⟨30, 1⟩, mask := 255,
    value_on := none, value_off := none }

/-- statusManagedEntry is a concrete status-managed register entry whose
descriptor carried no usable on/off encodings. -/
def statusManagedEntry : RegisterEntry :=
  { reg_type := 2, offset := 1, formula := "#", formula_inverse := "#",
    format_string := "{0}", set_min := ⟨0, 1⟩, set_max := ⟨100, 1⟩, mask := 255,
    value_on := none, value_off := none }

/-- powEntry is a register entry whose formulas use Python exponentiation,
an operator outside the restricted grammar the specification demands. -/
def powEntry : RegisterEntry :=
  { reg_type := 2, offset := 0, formula := "#**2", formula_inverse := "#**2",
    format_string := "{0}", set_min := ⟨0, 1⟩, set_max := ⟨100, 1⟩, mask := 255,
    value_on := none, value_off := none }

/-- plainTempEntry is the version-N register entry of the atomicity
scenario: its formula passes the raw value through unscaled. -/
def plainTempEntry : RegisterEntry :=
  { reg_type := 2, offset := 0, formula := "#", formula_inverse := "#",
    format_string := "{0}", set_min := ⟨0, 1⟩, set_max := ⟨100, 1⟩, mask := 255,
    value_on := none, value_off := none }

/-- newTempRaw is the version-N+1 descriptor of the atomicity scenario: the
same key and offset as plainTempEntry but with the /10 scaling formula. -/
def newTempRaw : RawRegister :=
  { reg_key := "temp_air_get", reg_type := 2, offset := 0, formula := "#/10",
    formula_inverse := "#*10", format_string := "{0}", set_min := ⟨7, 1⟩,
    set_max := ⟨30, 1⟩, mask := 255, enc_val := none }

/-- catalogNew is a server catalog holding one group, id 1, with the
version-N+1 descriptor. -/
def catalogNew : Catalog := ⟨[⟨1, [newTempRaw]⟩]⟩

/-- stV0 is the device state before the atomicity scenario: version-N map
and version-N raw values (220 at offset 0). -/
def stV0 : DeviceState := ⟨[("temp_air_get", plainTempEntry)], [(0, ⟨false, 220, 1⟩)]⟩

/-- handleWebcallSteps_eq characterizes the 401 recursion of
handle_webcall on any response script: the result is the interpretation of
the first non-401 response (none when every response is 401, since the
recursion then never returns within the script), the number of requests is
one per leading 401 plus the final attempt, and every leading 401 costs
one token refresh.  There is no bound and no Unauthorized outcome. -/
theorem handleWebcallSteps_eq (rs : List (ℕ × String)) :
    handleWebcallSteps rs =
      ((rs.get? (leading401 rs)).map interpretResponse,
        (min (leading401 rs + 1) rs.length, leading401 rs)) := by
  induction rs with
  | nil => simp [handleWebcallSteps, leading401]
  | cons p rest ih =>
    obtain ⟨s, b⟩ := p
    by_cases h : s = 401
    · simp [handleWebcallSteps, leading401, List.takeWhile_cons, h, ih,
        Nat.succ_min_succ]
    · by_cases h2 : s = 200
      · simp [handleWebcallSteps, leading401, List.takeWhile_cons, h, h2,
          interpretResponse]
      · simp [handleWebcallSteps, leading401, List.takeWhile_cons, h, h2,
          interpretResponse]

/-- pollLoopGo_never_completed shows the polling loop's result is still an
incomplete answer when every poll comes back incomplete, whatever the
budget. -/
theorem pollLoopGo_never_completed (polls : ℕ → Option PollRes)
    (h : ∀ n, jobIncomplete (polls n) = true) :
    ∀ (b k : ℕ) (res : Option PollRes), jobIncomplete res = true →
      jobIncomplete (pollLoopGo polls res k b) = true := by
  intro b
  induction b with
  | zero => intro k res hres; simpa [pollLoopGo] using hres
  | succ b ih =>
    intro k res hres
    rw [pollLoopGo]
    simp [hres]
    exact ih _ _ (h _)

/-- foldl_no_match shows the group scan of the register-map update leaves
the accumulator untouched when no group id matches the target. -/
theorem foldl_no_match (targetId : ℤ) :
    ∀ (gs : List RegistersMapGroup) (old : List (String × RegisterEntry)),
      (∀ g ∈ gs, g.id ≠ targetId) →
      gs.foldl
        (fun acc g => if g.id = targetId then buildRegisterMapDict g.registers else acc)
        old = old := by
  intro gs
  induction gs with
  | nil => intro old _; rfl
  | cons g rest ih =>
    intro old h
    have hg : g.id ≠ targetId := h g (by simp)
    simp only [List.foldl, if_neg hg]
    exact ih old (fun g2 hmem => h g2 (by simp [hmem]))

/-- resultIsSingleton holds of a write-encoding outcome when every encoded
payload it carries is a one-element list. -/
def resultIsSingleton : Except DevError (List ℤ) → Bool
  | Except.ok l => l.length == 1
  | Except.error _ => true

/-- encode_singleton shows the encode pipeline only ever produces
one-element payloads. -/
theorem encode_singleton (e : RegisterEntry) (v : Frac) :
    resultIsSingleton (encode_for_writing e v) = true := by
  unfold encode_for_writing
  cases h1 : pyEval (substituteHash e.formula_inverse (pyFloatStr v)) with
  | none => rfl
  | some x =>
    dsimp only
    cases h2 : pyFormat e.format_string x with
    | none => rfl
    | some s =>
      dsimp only
      cases h3 : pyFloatOfString s with
      | none => rfl
      | some f => rfl

/-- encode_never_valueError shows the encode pipeline after the bounds
check cannot raise the bounds ValueError: only the check itself does. -/
theorem encode_never_valueError (e : RegisterEntry) (v : Frac) (lo hi : Frac) :
    encode_for_writing e v ≠ Except.error (DevError.valueError lo hi) := by
  unfold encode_for_writing
  cases h1 : pyEval (substituteHash e.formula_inverse (pyFloatStr v)) with
  | none => simp
  | some x =>
    dsimp only
    cases h2 : pyFormat e.format_string x with
    | none => simp
    | some s =>
      dsimp only
      cases h3 : pyFloatOfString s with
      | none => simp
      | some f => simp

/-- frac_blt_self notes the strict comparison is irreflexive. -/
theorem frac_blt_self (x : Frac) : x.blt x = false := by
  simp [Frac.blt]

/-- C1 counterexample: the claim says the decode/encode path evaluates only
expressions in the restricted grammar of + - * / ( ) and numeric literals.
It is false: the source passes the substituted formula to Python's
unrestricted eval, so the formula "#**2" with raw value 3 becomes "3**2",
a string outside the restricted grammar, and the decode path evaluates it
to 9 instead of rejecting it. -/
theorem c1_decode_accepts_exponentiation_counterexample :
    inRestrictedGrammar (substituteHash "#**2" (PyNum.pyStr ⟨false, 3, 1⟩)) = false ∧
    get_information_item ⟨[("status_get", powEntry)], [(0, ⟨false, 3, 1⟩)]⟩
      "status_get" = some "9" :=
  ⟨by decide, by decide⟩

/-- C1 amended: formula evaluation is Python's general-purpose eval applied
to the substituted string and is not restricted to the + - * / ( ) numeric
grammar: an expression outside that grammar (exponentiation, here "#**2"
substituted to "5.0**2" on the encode path and "5**2" on the decode path)
is evaluated to a value on both paths rather than rejected.  Since
evaluation is delegated to an unrestricted interpreter, server-supplied
formula strings are not confined to the safe arithmetic grammar. -/
theorem c1_eval_not_restricted_to_grammar :
    inRestrictedGrammar (substituteHash "#**2" (pyFloatStr ⟨5, 1⟩)) = false ∧
    prepare_value_for_writing [("power_set", powEntry)] "power_set" ⟨5, 1⟩ =
      Except.ok [25] ∧
    inRestrictedGrammar (substituteHash "#**2" (PyNum.pyStr ⟨false, 5, 1⟩)) = false ∧
    get_information_item ⟨[("power_set", powEntry)], [(0, ⟨false, 5, 1⟩)]⟩
      "power_set" = some "25" :=
  ⟨by decide, rfl, by decide, by decide⟩

/-- C2 counterexample: the claim says a second consecutive 401 surfaces
Unauthorized and no third request is attempted.  It is false: on the
script 401, 401, 200 the source's handle_webcall recursion refreshes twice,
issues a third request, and returns that request's body as a success. -/
theorem c2_third_request_counterexample :
    handle_webcall false [(401, "a"), (401, "b"), (200, "ok")] =
      (some (CallResult.success "ok"), (3, 2)) := by
  decide

/-- C2 amended: a 401 response triggers a token refresh and an
unconditional recursive retry with no bound: on any response script, one
request is made per leading 401 (each costing one refresh) plus one final
request answered by the first non-401 response, whose interpretation is
returned; when every scripted response is 401 the recursion consumes the
whole script without returning, and no Unauthorized condition is ever
produced by this path. -/
theorem c2_retry_unbounded (tokenExpired : Bool) (rs : List (ℕ × String)) :
    handle_webcall tokenExpired rs =
      ((rs.get? (leading401 rs)).map interpretResponse,
        (min (leading401 rs + 1) rs.length,
          leading401 rs + (if tokenExpired then 1 else 0))) := by
  simp [handle_webcall, handleWebcallSteps_eq]

/-- C3: for the writable registers temp_air_set and power_set, a supplied
value strictly below set_min or strictly above set_max makes the setter
fail with the bounds ValueError (the OutOfRange condition), the value is
not clamped, and no write request reaches the transport boundary (the
emitted trace is empty). -/
theorem c3_out_of_range_write_rejected (map : List (String × RegisterEntry))
    (e : RegisterEntry) (v : Frac) (writeRes : Option String)
    (polls : ℕ → Option PollRes)
    (hout : v.blt e.set_min = true ∨ e.set_max.blt v = true) :
    (dictFind map "temp_air_set" = some e →
      set_air_temperature map v writeRes polls =
        (Except.error (DevError.valueError e.set_min e.set_max), [])) ∧
    (dictFind map "power_set" = some e →
      set_power map v writeRes polls =
        (Except.error (DevError.valueError e.set_min e.set_max), [])) := by
  have hb : (v.blt e.set_min || e.set_max.blt v) = true := by
    rcases hout with h1 | h1 <;> simp [h1]
  constructor <;> intro h
  · simp [set_air_temperature, prepare_value_for_writing, h, hb]
  · simp [set_power, prepare_value_for_writing, h, hb]

/-- Witness for c3_out_of_range_write_rejected: with bounds 7..30 the
value 100 is rejected by both setters with the ValueError and an empty
write trace. -/
theorem c3_out_of_range_write_rejected_witness :
    set_air_temperature [("temp_air_set", tempAirSetEntry), ("power_set", tempAirSetEntry)]
        ⟨100, 1⟩ none (fun _ => none) =
      (Except.error (DevError.valueError ⟨7, 1⟩ ⟨30, 1⟩), []) ∧
    set_power [("temp_air_set", tempAirSetEntry), ("power_set", tempAirSetEntry)]
        ⟨100, 1⟩ none (fun _ => none) =
      (Except.error (DevError.valueError ⟨7, 1⟩ ⟨30, 1⟩), []) := by
  have h := c3_out_of_range_write_rejected
    [("temp_air_set", tempAirSetEntry), ("power_set", tempAirSetEntry)]
    tempAirSetEntry ⟨100, 1⟩ none (fun _ => none) (Or.inr (by decide))
  exact ⟨h.1 rfl, h.2 rfl⟩

/-- C4 counterexample: the claim says a property accessor never observes a
register entry from map version N+1 combined with raw values from version
N, even for update() calls that fail partway.  It is false: starting from
the version-N state stV0, an update whose register-map fetch succeeds (new
formula "#/10") but whose buffer reading fails leaves the device holding
the new map next to the old raw values, and the accessor then decodes the
old raw value 220 through the new entry's formula, observing "22.0" (the
all-old pair shows "220"; an all-new pair would require new raw values,
which were never fetched). -/
theorem c4_mixed_state_counterexample :
    device_update (some catalogNew) 1 none (fun _ => none) stV0 =
      (Except.error (DevError.fetchError "Error while fetching device information"),
        ⟨[("temp_air_get", buildRegisterEntry newTempRaw)], [(0, ⟨false, 220, 1⟩)]⟩) ∧
    buildRegisterEntry newTempRaw ≠ plainTempEntry ∧
    get_information_item
      ⟨[("temp_air_get", buildRegisterEntry newTempRaw)], [(0, ⟨false, 220, 1⟩)]⟩
      "temp_air_get" = some "22.0" ∧
    get_information_item stV0 "temp_air_get" = some "220" :=
  ⟨rfl, by decide, by decide, by decide⟩

/-- C4 amended: the refresh is not atomic: Device.update publishes the new
register map as soon as the first phase returns, before the raw values are
fetched; whenever the register-map phase succeeds with map m and the
information phase fails, the device is left holding m together with the
previous raw values, so translation reads observe the new map paired with
version-N values. -/
theorem c4_map_published_before_values (catalogRes : Option Catalog) (targetId : ℤ)
    (bufferRes : Option String) (polls : ℕ → Option PollRes) (st : DeviceState)
    (m : List (String × RegisterEntry)) (e : DevError)
    (hm : update_device_registers_mapping catalogRes targetId st.register_map_dict =
      Except.ok m)
    (hi : update_device_information bufferRes polls = Except.error e) :
    device_update catalogRes targetId bufferRes polls st =
      (Except.error e, ⟨m, st.information_dict⟩) := by
  simp [device_update, hm, hi]

/-- Witness for c4_map_published_before_values at the concrete scenario of
the counterexample. -/
theorem c4_map_published_before_values_witness :
    device_update (some catalogNew) 1 none (fun _ => none) stV0 =
      (Except.error (DevError.fetchError "Error while fetching device information"),
        ⟨buildRegisterMapDict [newTempRaw], stV0.information_dict⟩) :=
  c4_map_published_before_values (some catalogNew) 1 none (fun _ => none) stV0
    (buildRegisterMapDict [newTempRaw])
    (DevError.fetchError "Error while fetching device information") rfl rfl

/-- C5: when the polled job status never reports completed, both polling
call sites, the buffer reading of update_device_information and the write
request of request_writing, exhaust the bound of 10 retries and fail by
raising the library's Error (the Timeout condition of the specification's
taxonomy), never returning a falsy or default value; the write path's only
transport emission remains the single write request. -/
theorem c5_poll_timeout_raises (polls : ℕ → Option PollRes) (idA idB : String)
    (map : List (String × RegisterEntry)) (item : String) (e : RegisterEntry)
    (values : List ℤ)
    (hpolls : ∀ n, jobIncomplete (polls n) = true)
    (he : dictFind map item = some e) :
    update_device_information (some idA) polls =
      Except.error (DevError.fetchError "Error while fetching device information") ∧
    request_writing map item values (some idB) polls =
      (Except.error (DevError.fetchError "Error while request device writing"),
        [{ items := [e.offset], masks := [e.mask], values := values }]) := by
  have hrun : jobIncomplete (runPollLoop polls) = true :=
    pollLoopGo_never_completed polls hpolls 10 0 (polls 0) (hpolls 0)
  constructor
  · simp [update_device_information, hrun]
  · simp [request_writing, he, hrun]

/-- Witness for c5_poll_timeout_raises: a job whose status calls all fail
(every poll returns False) times out on both paths. -/
theorem c5_poll_timeout_raises_witness :
    update_device_information (some "reqA") (fun _ => none) =
      Except.error (DevError.fetchError "Error while fetching device information") ∧
    request_writing [("temp_air_set", tempAirSetEntry)] "temp_air_set" [220]
        (some "reqB") (fun _ => none) =
      (Except.error (DevError.fetchError "Error while request device writing"),
        [{ items := [0], masks := [255], values := [220] }]) := by
  have h := c5_poll_timeout_raises (fun _ => none) "reqA" "reqB"
    [("temp_air_set", tempAirSetEntry)] "temp_air_set" tempAirSetEntry [220]
    (fun _ => rfl) rfl
  exact ⟨h.1, h.2⟩

/-- C6 counterexample: the claim says that when no catalog group matches
the device's target registers-map id, building the register map fails with
a NotFound condition.  It is false: with a catalog holding only group id 2
and target id 1, update_device_registers_mapping completes with Except.ok,
silently keeping the previous register map. -/
theorem c6_silent_no_match_counterexample :
    update_device_registers_mapping (some ⟨[⟨2, []⟩]⟩) 1
      [("temp_air_set", tempAirSetEntry)] =
      Except.ok [("temp_air_set", tempAirSetEntry)] := rfl

/-- C6 amended: when no group of the catalog matches the target id, the
register-map update completes without raising and leaves the previously
stored register map unchanged (the group loop simply finds nothing to
assign); the only failure this method raises is for the web call itself
returning False. -/
theorem c6_no_match_keeps_old_map (cat : Catalog) (targetId : ℤ)
    (old : List (String × RegisterEntry))
    (h : ∀ g ∈ cat.registers_map, g.id ≠ targetId) :
    update_device_registers_mapping (some cat) targetId old = Except.ok old := by
  simp [update_device_registers_mapping,
    foldl_no_match targetId cat.registers_map old h]

/-- Witness for c6_no_match_keeps_old_map: a two-group catalog with ids 2
and 3 and target id 1 keeps the old map. -/
theorem c6_no_match_keeps_old_map_witness :
    update_device_registers_mapping (some ⟨[⟨2, []⟩, ⟨3, []⟩]⟩) 1
      [("temp_air_set", tempAirSetEntry)] =
      Except.ok [("temp_air_set", tempAirSetEntry)] :=
  c6_no_match_keeps_old_map ⟨[⟨2, []⟩, ⟨3, []⟩]⟩ 1
    [("temp_air_set", tempAirSetEntry)] (by decide)

/-- C7: when the status-managed register entry lacks the enumerated on/off
encodings, turn_on and turn_off fail before any write with the KeyError on
value_on respectively value_off, the exception by which the source signals
the missing configuration (the ConfigurationMissing condition), and no
write request is emitted. -/
theorem c7_missing_onoff_encoding_fails (map : List (String × RegisterEntry))
    (e : RegisterEntry) (writeRes : Option String) (polls : ℕ → Option PollRes)
    (he : dictFind map "status_managed_get" = some e) :
    (e.value_on = none →
      turn_on map writeRes polls = (Except.error (DevError.keyError "value_on"), [])) ∧
    (e.value_off = none →
      turn_off map writeRes polls = (Except.error (DevError.keyError "value_off"), [])) := by
  constructor <;> intro h
  · simp [turn_on, he, h]
  · simp [turn_off, he, h]

/-- Witness for c7_missing_onoff_encoding_fails: a status-managed entry
built without enc_val makes both operations fail with the KeyError. -/
theorem c7_missing_onoff_encoding_fails_witness :
    turn_on [("status_managed_get", statusManagedEntry)] (some "req") (fun _ => none) =
      (Except.error (DevError.keyError "value_on"), []) ∧
    turn_off [("status_managed_get", statusManagedEntry)] (some "req") (fun _ => none) =
      (Except.error (DevError.keyError "value_off"), []) := by
  have h := c7_missing_onoff_encoding_fails [("status_managed_get", statusManagedEntry)]
    statusManagedEntry (some "req") (fun _ => none) rfl
  exact ⟨h.1 rfl, h.2 rfl⟩

/-- C8: with raw value 220 (a Python int) at offset 0 and a register entry
with offset 0, formula "#/10" and format_string "{0}", the decode path
yields the display value 22.0 (rendered by str.format as the string
"22.0", since Python's true division produces the float 22.0). -/
theorem c8_decode_220_yields_22_0 :
    get_information_item ⟨[("temp_air_set", tempAirSetEntry)], [(0, ⟨false, 220, 1⟩)]⟩
      "temp_air_set" = some "22.0" := by
  decide

/-- C9: encoding the user value 22.0 for a register with formula_inverse
"#*10" yields the wire value 220 (eval gives the float 220.0, format and
float() keep it, int() truncates to 220), wrapped in a one-element list;
and every encode outcome whatsoever wraps its payload in a one-element
list, matching the wire payload's expected shape. -/
theorem c9_encode_22_yields_220_singleton :
    prepare_value_for_writing [("temp_air_set", tempAirSetEntry)] "temp_air_set" ⟨22, 1⟩ =
      Except.ok [220] ∧
    ∀ (map : List (String × RegisterEntry)) (item : String) (v : Frac),
      resultIsSingleton (prepare_value_for_writing map item v) = true := by
  constructor
  · rfl
  · intro map item v
    unfold prepare_value_for_writing
    cases h : dictFind map item with
    | none => rfl
    | some e =>
      by_cases hb : (v.blt e.set_min || e.set_max.blt v) = true
      · simp [hb, resultIsSingleton]
      · simp [hb]
        exact encode_singleton e v

/-- C10: the write-path bounds check is inclusive at both endpoints: the
OutOfRange ValueError is raised exactly when the value is strictly below
set_min or strictly above set_max; a value not strictly outside proceeds
to encoding, and in particular the endpoints set_min and set_max
themselves (for an entry with set_min at most set_max) pass validation and
are encoded. -/
theorem c10_bounds_check_inclusive (map : List (String × RegisterEntry))
    (item : String) (e : RegisterEntry) (v : Frac)
    (he : dictFind map item = some e) :
    (prepare_value_for_writing map item v =
        Except.error (DevError.valueError e.set_min e.set_max)
      ↔ (v.blt e.set_min = true ∨ e.set_max.blt v = true)) ∧
    (v.blt e.set_min = false → e.set_max.blt v = false →
      prepare_value_for_writing map item v = encode_for_writing e v) ∧
    (e.set_max.blt e.set_min = false →
      prepare_value_for_writing map item e.set_min = encode_for_writing e e.set_min ∧
      prepare_value_for_writing map item e.set_max = encode_for_writing e e.set_max) := by
  refine ⟨?_, ?_, ?_⟩
  · constructor
    · intro hres
      by_cases hb : (v.blt e.set_min || e.set_max.blt v) = true
      · rcases Bool.or_eq_true_iff.mp hb with h1 | h1
        · exact Or.inl h1
        · exact Or.inr h1
      · exfalso
        have heq : prepare_value_for_writing map item v = encode_for_writing e v := by
          simp [prepare_value_for_writing, he, hb]
        rw [heq] at hres
        exact encode_never_valueError e v e.set_min e.set_max hres
    · intro hout
      have hb : (v.blt e.set_min || e.set_max.blt v) = true := by
        rcases hout with h1 | h1 <;> simp [h1]
      simp [prepare_value_for_writing, he, hb]
  · intro h1 h2
    simp [prepare_value_for_writing, he, h1, h2]
  · intro hord
    constructor
    · simp [prepare_value_for_writing, he, frac_blt_self, hord]
    · simp [prepare_value_for_writing, he, frac_blt_self, hord]

/-- Witness for c10_bounds_check_inclusive: with bounds 7..30, the
endpoint values 7 and 30 pass validation and reach the encoder while 100
is rejected with the ValueError. -/
theorem c10_bounds_check_inclusive_witness :
    prepare_value_for_writing [("temp_air_set", tempAirSetEntry)] "temp_air_set" ⟨7, 1⟩ =
      encode_for_writing tempAirSetEntry ⟨7, 1⟩ ∧
    prepare_value_for_writing [("temp_air_set", tempAirSetEntry)] "temp_air_set" ⟨30, 1⟩ =
      encode_for_writing tempAirSetEntry ⟨30, 1⟩ ∧
    prepare_value_for_writing [("temp_air_set", tempAirSetEntry)] "temp_air_set" ⟨100, 1⟩ =
      Except.error (DevError.valueError tempAirSetEntry.set_min tempAirSetEntry.set_max) := by
  refine ⟨?_, ?_, ?_⟩
  · exact (c10_bounds_check_inclusive [("temp_air_set", tempAirSetEntry)] "temp_air_set" tempAirSetEntry ⟨7, 1⟩ rfl).2.1
      (by decide) (by decide)
  · exact (c10_bounds_check_inclusive [("temp_air_set", tempAirSetEntry)] "temp_air_set" tempAirSetEntry ⟨30, 1⟩ rfl).2.1
      (by decide) (by decide)
  · exact (c10_bounds_check_inclusive [("temp_air_set", tempAirSetEntry)] "temp_air_set" tempAirSetEntry ⟨100, 1⟩ rfl).1.mpr
      (Or.inr (by decide))
